import Mathlib

/-
Verification of the VISE card service core (src/app.py): a shallow embedding
of the rule-evaluation engine — client eligibility, the purchase geographic
gate, and the best-of-several discount selector — together with theorems
settling the specification's claims about it.

Python floats are modelled as rationals (ℚ); the in-memory CLIENTS dict and
NEXT_ID counter are modelled as explicit state (an association list plus a
counter) threaded through the two route handlers.
-/

namespace Vise

/-- Embedding of `CardType(str, Enum)` from app.py. -/
inductive CardType where
  | Classic
  | Gold
  | Platinum
  | Black
  | White
deriving DecidableEq, Repr

/-- Rendering of a `CardType` value as its string value (the str-enum value
used when the tier is interpolated into messages). -/
def cardName : CardType → String
  | .Classic => "Classic"
  | .Gold => "Gold"
  | .Platinum => "Platinum"
  | .Black => "Black"
  | .White => "White"

/-- Embedding of the `ClientIn` request model (pydantic). `monthlyIncome`
is a float with `ge=0` enforced at parse time; floats are modelled as ℚ. -/
structure ClientIn where
  name : String
  country : String
  monthlyIncome : ℚ
  viseClub : Bool
  cardType : CardType
deriving DecidableEq, Repr

/-- Embedding of the per-client dict stored in `CLIENTS`. -/
structure ClientRecord where
  clientId : ℕ
  name : String
  country : String
  monthlyIncome : ℚ
  viseClub : Bool
  cardType : CardType
deriving DecidableEq, Repr

/-- Embedding of the `PurchaseIn` request model. `amount` carries `gt=0`
enforced at parse time. -/
structure PurchaseIn where
  clientId : ℕ
  amount : ℚ
  currency : String
  purchaseDate : String
  purchaseCountry : String
deriving DecidableEq, Repr

/-- Embedding of `BLACK_WHITE_COUNTRY_BLOCKLIST = {"China", "Vietnam",
"India", "Irán", "Iran"}`. Python set membership is exact string equality,
so a list with `∈` is a faithful model. -/
def BLACK_WHITE_COUNTRY_BLOCKLIST : List String :=
  ["China", "Vietnam", "India", "Irán", "Iran"]

/-- Embedding of the `WEEKDAY_NAME` dict (keys 0..6, Monday first). -/
def WEEKDAY_NAME : List String :=
  ["Lunes", "Martes", "Miércoles", "Jueves", "Viernes", "Sábado", "Domingo"]

/-- Embedding of `validate_client_restrictions`: returns the rejection
reason when the payload does not qualify, `none` when it does. -/
def validate_client_restrictions (payload : ClientIn) : Option String :=
  let income := payload.monthlyIncome
  let club := payload.viseClub
  let country := payload.country
  match payload.cardType with
  | .Classic => none
  | .Gold =>
      if income < 500 then
        some "El cliente no cumple con el ingreso mínimo de 500 USD mensuales para Gold"
      else none
  | .Platinum =>
      if income < 1000 then
        some "El cliente no cumple con el ingreso mínimo de 1000 USD mensuales para Platinum"
      else if !club then
        some "El cliente no cumple con la suscripción VISE CLUB requerida para Platinum"
      else none
  | .Black =>
      if income < 2000 then
        some "El cliente no cumple con el ingreso mínimo de 2000 USD mensuales para Black"
      else if !club then
        some "El cliente no cumple con la suscripción VISE CLUB requerida para Black"
      else if country ∈ BLACK_WHITE_COUNTRY_BLOCKLIST then
        some "El cliente con tarjeta Black no puede residir en China, Vietnam, India o Irán"
      else none
  | .White =>
      if income < 2000 then
        some "El cliente no cumple con el ingreso mínimo de 2000 USD mensuales para White"
      else if !club then
        some "El cliente no cumple con la suscripción VISE CLUB requerida para White"
      else if country ∈ BLACK_WHITE_COUNTRY_BLOCKLIST then
        some "El cliente con tarjeta White no puede residir en China, Vietnam, India o Irán"
      else none

/-- Embedding of `purchase_restrictions`: rejects when the client's tier is
Black or White and the purchase country is in the blocklist. -/
def purchase_restrictions (client : ClientRecord) (purchase : PurchaseIn) :
    Option String :=
  if (client.cardType = .Black ∨ client.cardType = .White) ∧
      purchase.purchaseCountry ∈ BLACK_WHITE_COUNTRY_BLOCKLIST then
    some ("El cliente con tarjeta " ++ cardName client.cardType ++
      " no puede realizar compras desde " ++ purchase.purchaseCountry)
  else none

/-- Model of Python `str.strip()`: drop leading and trailing whitespace
characters. -/
def pyStrip (s : String) : String :=
  String.mk (((s.toList.dropWhile Char.isWhitespace).reverse.dropWhile
    Char.isWhitespace).reverse)

/-- Model of Python `str.lower()`: character-wise lowering. -/
def pyLower (s : String) : String := String.mk (s.toList.map Char.toLower)

/-- Embedding of `is_abroad`: trimmed, lowered inequality of the two
country strings (the `x or ""` None-guard is the identity here, since
Lean strings are never None). -/
def is_abroad (client_country purchase_country : String) : Bool :=
  pyLower (pyStrip purchase_country) != pyLower (pyStrip client_country)

/-- Model of a parsed (timezone-aware) `datetime`: the civil field values
produced by parsing, plus the parsed UTC offset in minutes. No conversion
between the civil fields and the offset ever happens. -/
structure PyDateTime where
  year : ℕ
  month : ℕ
  day : ℕ
  hour : ℕ
  minute : ℕ
  second : ℕ
  offsetMinutes : ℤ
deriving DecidableEq, Repr

/-- Gregorian leap-year test. -/
def isLeap (y : ℕ) : Bool := y % 4 == 0 && (y % 100 != 0 || y % 400 == 0)

/-- Length of month `m` (1..12) in year `y`; 0 for out-of-range `m`. -/
def daysInMonth (y m : ℕ) : ℕ :=
  match m with
  | 1 => 31 | 2 => if isLeap y then 29 else 28 | 3 => 31 | 4 => 30
  | 5 => 31 | 6 => 30 | 7 => 31 | 8 => 31 | 9 => 30 | 10 => 31
  | 11 => 30 | 12 => 31 | _ => 0

/-- Days in year `y` strictly before month `m`. -/
def daysBeforeMonth (y m : ℕ) : ℕ :=
  ((List.range (m - 1)).map (fun i => daysInMonth y (i + 1))).sum

/-- Number of leap years strictly before year `y` (proleptic Gregorian). -/
def leapDaysBefore (y : ℕ) : ℕ := (y - 1) / 4 - (y - 1) / 100 + (y - 1) / 400

/-- Model of `date.toordinal()`: day number counting 0001-01-01 as 1. -/
def toOrdinal (y m d : ℕ) : ℕ :=
  365 * (y - 1) + leapDaysBefore y + daysBeforeMonth y m + d

/-- Model of `datetime.weekday()`: Monday = 0 .. Sunday = 6, computed from
the civil date fields only (an aware datetime's weekday reads the stored
civil fields; the offset plays no part). -/
def pyWeekday (dt : PyDateTime) : ℕ :=
  (toOrdinal dt.year dt.month dt.day + 6) % 7

/-- Numeric value of an ASCII digit character. -/
def digitVal (c : Char) : ℕ := c.toNat - 48

/-- Read exactly `k` ASCII digits into an accumulator. -/
def readDigitsAux : ℕ → ℕ → List Char → Option (ℕ × List Char)
  | 0, acc, cs => some (acc, cs)
  | _ + 1, _, [] => none
  | k + 1, acc, c :: cs =>
      if c.isDigit then readDigitsAux k (10 * acc + digitVal c) cs else none

/-- Read exactly `k` ASCII digits as a number. -/
def readDigits (k : ℕ) (cs : List Char) : Option (ℕ × List Char) :=
  readDigitsAux k 0 cs

/-- Consume one expected character. -/
def expectChar (c : Char) : List Char → Option (List Char)
  | [] => none
  | x :: xs => if x = c then some xs else none

/-- Parse a `YYYY-MM-DD` calendar date, validating ranges the way the
`datetime` constructor does. -/
def readDate (cs : List Char) : Option (ℕ × ℕ × ℕ × List Char) := do
  let (y, cs) ← readDigits 4 cs
  let cs ← expectChar '-' cs
  let (m, cs) ← readDigits 2 cs
  let cs ← expectChar '-' cs
  let (d, cs) ← readDigits 2 cs
  if 1 ≤ y ∧ 1 ≤ m ∧ m ≤ 12 ∧ 1 ≤ d ∧ d ≤ daysInMonth y m then
    some (y, m, d, cs)
  else none

/-- Consume an optional fractional-seconds part (`.` or `,` then 1–6
digits). -/
def readFraction : List Char → Option (List Char)
  | [] => some []
  | c :: cs =>
      if c = '.' ∨ c = ',' then
        let digs := cs.takeWhile Char.isDigit
        if 1 ≤ digs.length ∧ digs.length ≤ 6 then
          some (cs.dropWhile Char.isDigit)
        else none
      else some (c :: cs)

/-- Parse a `HH:MM[:SS[.ffffff]]` time of day, validating ranges the way
the `datetime` constructor does. -/
def readTime (cs : List Char) : Option (ℕ × ℕ × ℕ × List Char) := do
  let (hh, cs) ← readDigits 2 cs
  let cs ← expectChar ':' cs
  let (mm, cs) ← readDigits 2 cs
  match expectChar ':' cs with
  | none => if hh ≤ 23 ∧ mm ≤ 59 then some (hh, mm, 0, cs) else none
  | some cs1 => do
      let (ss, cs2) ← readDigits 2 cs1
      let cs3 ← readFraction cs2
      if hh ≤ 23 ∧ mm ≤ 59 ∧ ss ≤ 59 then some (hh, mm, ss, cs3) else none

/-- Parse the trailing timezone designator: `Z`, or a sign followed by
`HH`, `HHMM` or `HH:MM`, yielding the offset in minutes; the input must
end with it. -/
def readTzMinutes (cs : List Char) : Option ℤ :=
  match cs with
  | ['Z'] => some 0
  | sign :: rest =>
      if sign = '+' ∨ sign = '-' then
        match readDigits 2 rest with
        | none => none
        | some (hh, rest1) =>
            let mmPart : Option (ℕ × List Char) :=
              match rest1 with
              | [] => some (0, [])
              | ':' :: r => readDigits 2 r
              | r => readDigits 2 r
            match mmPart with
            | none => none
            | some (mm, rest2) =>
                if rest2 = [] ∧ hh ≤ 23 ∧ mm ≤ 59 then
                  some ((if sign = '+' then 1 else -1) * ((hh : ℤ) * 60 + mm))
                else none
      else none
  | [] => none

/-- Modelled from the spec: the ISO-8601 parsing done by the external
`dateutil.parser.isoparse` (§4.1: parse an ISO-8601 timestamp that ends in
a literal UTC designator or carries an explicit numeric offset; fail if
unparseable), restricted to the extended format
`YYYY-MM-DDTHH:MM[:SS[.ffffff]]` followed by `Z` or a numeric offset. -/
def isoparse (s : String) : Option PyDateTime := do
  let (y, m, d, cs) ← readDate s.toList
  let cs ← expectChar 'T' cs
  let (hh, mi, ss, cs) ← readTime cs
  let off ← readTzMinutes cs
  some ⟨y, m, d, hh, mi, ss, off⟩

/-- One comparison step of Python `max(..., key=lambda x: x[0])`: the
challenger replaces the current best only when its key is strictly
greater. -/
def pickBetter (best c : ℚ × String) : ℚ × String :=
  if best.1 < c.1 then c else best

/-- Model of Python `max(candidates, key=lambda x: x[0])`: a left fold of
`pickBetter`, so among equal keys the first-listed element survives. -/
def maxByFirst : List (ℚ × String) → Option (ℚ × String)
  | [] => none
  | x :: xs => some (xs.foldl pickBetter x)

/-- Candidate list built by `compute_discount` for a given tier, client
country, amount, weekday and purchase country (the body of the function
between date parsing and the final `max`). Float literals 0.15, 0.20,
0.25, 0.30, 0.35, 0.05 are modelled as the rationals they denote. -/
def discountCandidates (card : CardType) (client_country : String)
    (amount : ℚ) (weekday : ℕ) (purchase_country : String) :
    List (ℚ × String) :=
  let weekday_name := WEEKDAY_NAME.getD weekday ""
  match card with
  | .Classic => []
  | .Gold =>
      if (weekday = 0 ∨ weekday = 1 ∨ weekday = 2) ∧ amount > 100 then
        [(amount * (15 / 100), weekday_name ++ " - Descuento 15%")]
      else []
  | .Platinum =>
      (if (weekday = 0 ∨ weekday = 1 ∨ weekday = 2) ∧ amount > 100 then
        [(amount * (20 / 100), weekday_name ++ " - Descuento 20%")] else []) ++
      (if weekday = 5 ∧ amount > 200 then
        [(amount * (30 / 100), "Sábado - Descuento 30%")] else []) ++
      (if is_abroad client_country purchase_country then
        [(amount * (5 / 100), "Exterior - Descuento 5%")] else [])
  | .Black =>
      (if (weekday = 0 ∨ weekday = 1 ∨ weekday = 2) ∧ amount > 100 then
        [(amount * (25 / 100), weekday_name ++ " - Descuento 25%")] else []) ++
      (if weekday = 5 ∧ amount > 200 then
        [(amount * (35 / 100), "Sábado - Descuento 35%")] else []) ++
      (if is_abroad client_country purchase_country then
        [(amount * (5 / 100), "Exterior - Descuento 5%")] else [])
  | .White =>
      (if (weekday = 0 ∨ weekday = 1 ∨ weekday = 2 ∨ weekday = 3 ∨ weekday = 4)
          ∧ amount > 100 then
        [(amount * (25 / 100), weekday_name ++ " - Descuento 25%")] else []) ++
      (if (weekday = 5 ∨ weekday = 6) ∧ amount > 200 then
        [(amount * (35 / 100), weekday_name ++ " - Descuento 35%")] else []) ++
      (if is_abroad client_country purchase_country then
        [(amount * (5 / 100), "Exterior - Descuento 5%")] else [])

/-- Selection step of `compute_discount`: the stable max over the candidate
list, or `(0, none)` when the list is empty. -/
def selectBest (candidates : List (ℚ × String)) : ℚ × Option String :=
  match maxByFirst candidates with
  | none => (0, none)
  | some (d, label) => (d, some label)

/-- Embedding of `compute_discount` after date parsing succeeded: build the
candidate list and select the best benefit. -/
def compute_discount_at (card : CardType) (client_country : String)
    (amount : ℚ) (weekday : ℕ) (purchase_country : String) :
    ℚ × Option String :=
  selectBest (discountCandidates card client_country amount weekday purchase_country)

/-- Embedding of `compute_discount`: parse the purchase date (the `none`
result models the ValueError the parse raises on an unparseable date,
uncaught in the source), then select the best benefit. -/
def compute_discount (client : ClientRecord) (purchase : PurchaseIn) :
    Option (ℚ × Option String) :=
  (isoparse purchase.purchaseDate).map fun dt =>
    compute_discount_at client.cardType client.country purchase.amount
      (pyWeekday dt) purchase.purchaseCountry

/-- Round-half-even to an integer: Python `round` tie-breaking on exact
values. -/
def roundHalfEven (x : ℚ) : ℤ :=
  if x - ⌊x⌋ < 1 / 2 then ⌊x⌋
  else if 1 / 2 < x - ⌊x⌋ then ⌊x⌋ + 1
  else if ⌊x⌋ % 2 = 0 then ⌊x⌋ else ⌊x⌋ + 1

/-- Model of Python `round(x, 2)`. -/
def round2 (x : ℚ) : ℚ := (roundHalfEven (100 * x) : ℚ) / 100

/-- Embedding of the `PurchaseInfo` response model. -/
structure PurchaseInfo where
  clientId : ℕ
  originalAmount : ℚ
  discountApplied : ℚ
  finalAmount : ℚ
  benefit : Option String
deriving DecidableEq, Repr

/-- Outcome of the `/purchase` route: the approved payload, the structured
rejection raised as HTTPException 400, or an exception escaping the handler
(no structured payload is produced in that case). -/
inductive PResult where
  | approved (purchase : PurchaseInfo)
  | rejected (error : String)
  | unhandledException
deriving DecidableEq, Repr

/-- Embedding of the `ClientOut` response model. -/
structure ClientOut where
  clientId : ℕ
  name : String
  cardType : CardType
  status : String
  message : String
deriving DecidableEq, Repr

/-- Outcome of the `/client` route. -/
inductive RegResult where
  | registered (out : ClientOut)
  | rejected (error : String)
deriving DecidableEq, Repr

/-- The module-level mutable state: the `CLIENTS` dict (id-keyed, insertion
ordered, modelled as an association list appended on insert — inserts always
use the fresh key `NEXT_ID`) and the `NEXT_ID` counter. -/
structure SysState where
  clients : List (ℕ × ClientRecord)
  nextId : ℕ
deriving DecidableEq, Repr

/-- Process start: `CLIENTS = {}` and `NEXT_ID = 1`. -/
def initState : SysState := ⟨[], 1⟩

/-- Embedding of the `register_client` route handler. -/
def register_client (s : SysState) (payload : ClientIn) :
    RegResult × SysState :=
  match validate_client_restrictions payload with
  | some error => (.rejected error, s)
  | none =>
      let client_id := s.nextId
      let record : ClientRecord :=
        ⟨client_id, payload.name, payload.country, payload.monthlyIncome,
         payload.viseClub, payload.cardType⟩
      (.registered
         ⟨client_id, payload.name, payload.cardType, "Registered",
          "Cliente apto para tarjeta " ++ cardName payload.cardType⟩,
       ⟨s.clients ++ [(client_id, record)], client_id + 1⟩)

/-- Embedding of the `register_purchase` route handler. The state is
threaded explicitly; the body never writes to it. -/
def register_purchase (s : SysState) (payload : PurchaseIn) :
    PResult × SysState :=
  match s.clients.lookup payload.clientId with
  | none => (.rejected "Cliente no encontrado", s)
  | some client =>
      match purchase_restrictions client payload with
      | some pr_error => (.rejected pr_error, s)
      | none =>
          match compute_discount client payload with
          | none => (.unhandledException, s)
          | some (discount, label) =>
              (.approved
                 ⟨payload.clientId, payload.amount, round2 discount,
                  round2 (payload.amount - discount), label⟩, s)

/-- A request hitting one of the two mutating-capable routes. -/
inductive Op where
  | client (payload : ClientIn)
  | purchase (payload : PurchaseIn)

/-- State transition of a single request. -/
def stepOp (s : SysState) : Op → SysState
  | .client payload => (register_client s payload).2
  | .purchase payload => (register_purchase s payload).2

/-- State after serving a sequence of requests from process start. -/
def runOps (ops : List Op) : SysState := ops.foldl stepOp initState

/-! ### Specification-side definitions

These follow the wording of the specification (§4.2 policy table, §4.4
benefit table) rather than the source's cascaded conditionals, so that the
refinement theorems compare two independently written artefacts. -/

/-- Income threshold of the §4.2 policy table (Classic has none). -/
def incomeThreshold : CardType → ℚ
  | .Classic => 0
  | .Gold => 500
  | .Platinum => 1000
  | .Black => 2000
  | .White => 2000

/-- Reason string reported for a failed income check. -/
def incomeReason : CardType → String
  | .Classic => ""
  | .Gold => "El cliente no cumple con el ingreso mínimo de 500 USD mensuales para Gold"
  | .Platinum => "El cliente no cumple con el ingreso mínimo de 1000 USD mensuales para Platinum"
  | .Black => "El cliente no cumple con el ingreso mínimo de 2000 USD mensuales para Black"
  | .White => "El cliente no cumple con el ingreso mínimo de 2000 USD mensuales para White"

/-- Reason string reported for a failed VISE CLUB check. -/
def clubReason : CardType → String
  | .Classic => ""
  | .Gold => ""
  | .Platinum => "El cliente no cumple con la suscripción VISE CLUB requerida para Platinum"
  | .Black => "El cliente no cumple con la suscripción VISE CLUB requerida para Black"
  | .White => "El cliente no cumple con la suscripción VISE CLUB requerida para White"

/-- Reason string reported for a failed residency check. -/
def residencyReason : CardType → String
  | .Black => "El cliente con tarjeta Black no puede residir en China, Vietnam, India o Irán"
  | .White => "El cliente con tarjeta White no puede residir en China, Vietnam, India o Irán"
  | _ => ""

/-- One row of the §4.2 policy table: a passing condition on
(monthlyIncome, viseClub, country) and the reason reported when this row is
the first to fail. -/
structure EligCheck where
  holds : ℚ → Bool → String → Bool
  reason : String

/-- The §4.2 policy table, rows in evaluation order per tier. -/
def specEligChecks : CardType → List EligCheck
  | .Classic => []
  | .Gold =>
      [⟨fun income _ _ => decide (500 ≤ income), incomeReason .Gold⟩]
  | .Platinum =>
      [⟨fun income _ _ => decide (1000 ≤ income), incomeReason .Platinum⟩,
       ⟨fun _ club _ => club, clubReason .Platinum⟩]
  | .Black =>
      [⟨fun income _ _ => decide (2000 ≤ income), incomeReason .Black⟩,
       ⟨fun _ club _ => club, clubReason .Black⟩,
       ⟨fun _ _ country => decide (country ∉ BLACK_WHITE_COUNTRY_BLOCKLIST),
        residencyReason .Black⟩]
  | .White =>
      [⟨fun income _ _ => decide (2000 ≤ income), incomeReason .White⟩,
       ⟨fun _ club _ => club, clubReason .White⟩,
       ⟨fun _ _ country => decide (country ∉ BLACK_WHITE_COUNTRY_BLOCKLIST),
        residencyReason .White⟩]

/-- Spec §4.2 evaluator: run the tier's checks top-down and report the
first failing row's reason, accepting when every row holds. -/
def specEligibility (p : ClientIn) : Option String :=
  ((specEligChecks p.cardType).find?
      (fun chk => !chk.holds p.monthlyIncome p.viseClub p.country)).map
    EligCheck.reason

/-- One row of the §4.4 benefit table: an applicability condition on
(weekdayIndex, amount, abroad?), a discount percentage, and the label
built from the weekday display label. -/
structure BenefitRule where
  applies : ℕ → ℚ → Bool → Bool
  percent : ℚ
  label : String → String

/-- The §4.4 benefit table, rows in listed order per tier. -/
def specBenefitRules : CardType → List BenefitRule
  | .Classic => []
  | .Gold =>
      [⟨fun w a _ => (w == 0 || w == 1 || w == 2) && decide (100 < a), 15,
        fun wn => wn ++ " - Descuento 15%"⟩]
  | .Platinum =>
      [⟨fun w a _ => (w == 0 || w == 1 || w == 2) && decide (100 < a), 20,
        fun wn => wn ++ " - Descuento 20%"⟩,
       ⟨fun w a _ => w == 5 && decide (200 < a), 30,
        fun _ => "Sábado - Descuento 30%"⟩,
       ⟨fun _ _ abroad => abroad, 5, fun _ => "Exterior - Descuento 5%"⟩]
  | .Black =>
      [⟨fun w a _ => (w == 0 || w == 1 || w == 2) && decide (100 < a), 25,
        fun wn => wn ++ " - Descuento 25%"⟩,
       ⟨fun w a _ => w == 5 && decide (200 < a), 35,
        fun _ => "Sábado - Descuento 35%"⟩,
       ⟨fun _ _ abroad => abroad, 5, fun _ => "Exterior - Descuento 5%"⟩]
  | .White =>
      [⟨fun w a _ => (w == 0 || w == 1 || w == 2 || w == 3 || w == 4) &&
          decide (100 < a), 25, fun wn => wn ++ " - Descuento 25%"⟩,
       ⟨fun w a _ => (w == 5 || w == 6) && decide (200 < a), 35,
        fun wn => wn ++ " - Descuento 35%"⟩,
       ⟨fun _ _ abroad => abroad, 5, fun _ => "Exterior - Descuento 5%"⟩]

/-- Spec notion of "abroad": the two countries differ under a
case-insensitive, whitespace-trimmed comparison. -/
def specAbroad (client_country purchase_country : String) : Bool :=
  !(pyLower (pyStrip purchase_country) == pyLower (pyStrip client_country))

/-- Spec §4.4 candidate list: every applicable row of the tier's table
contributes its percentage of the amount and its label. -/
def specCandidateList (card : CardType) (client_country : String)
    (amount : ℚ) (weekday : ℕ) (purchase_country : String) :
    List (ℚ × String) :=
  (specBenefitRules card).filterMap fun r =>
    if r.applies weekday amount (specAbroad client_country purchase_country) then
      some (amount * (r.percent / 100), r.label (WEEKDAY_NAME.getD weekday ""))
    else none

/-- The registration payload a stored record was created from. -/
def recordPayload (r : ClientRecord) : ClientIn :=
  ⟨r.name, r.country, r.monthlyIncome, r.viseClub, r.cardType⟩

/-- Store invariant: every stored record passes eligibility, and the stored
ids are exactly 1, 2, …, nextId − 1 in insertion order. -/
def StoreInv (s : SysState) : Prop :=
  (∀ entry ∈ s.clients,
    validate_client_restrictions (recordPayload entry.2) = none) ∧
  s.clients.map Prod.fst = (List.range (s.nextId - 1)).map (· + 1) ∧
  1 ≤ s.nextId

/-! ### Helper lemmas -/

lemma register_purchase_state (s : SysState) (p : PurchaseIn) :
    (register_purchase s p).2 = s := by
  unfold register_purchase
  repeat' split
  all_goals rfl

lemma foldl_pickBetter_first (xs : List (ℚ × String)) (x : ℚ × String) :
    ∃ pre post, x :: xs = pre ++ (xs.foldl pickBetter x) :: post ∧
      (∀ c ∈ x :: xs, c.1 ≤ (xs.foldl pickBetter x).1) ∧
      (∀ c ∈ pre, c.1 < (xs.foldl pickBetter x).1) := by
  induction xs generalizing x with
  | nil => exact ⟨[], [], rfl, by simp, by simp⟩
  | cons c cs ih =>
    obtain ⟨pre', post', heq, hle, hstrict⟩ := ih (pickBetter x c)
    have hfold : (c :: cs).foldl pickBetter x =
        cs.foldl pickBetter (pickBetter x c) := rfl
    rw [hfold]
    by_cases hlt : x.1 < c.1
    · have hstep : pickBetter x c = c := if_pos hlt
      rw [hstep] at heq hle hstrict
      have hcle : c.1 ≤ (cs.foldl pickBetter c).1 := hle c (List.mem_cons_self c cs)
      rw [hstep]
      refine ⟨x :: pre', post', ?_, ?_, ?_⟩
      · simpa using congrArg (List.cons x) heq
      · intro y hy
        rcases List.mem_cons.mp hy with rfl | hy'
        · exact le_of_lt (lt_of_lt_of_le hlt hcle)
        · exact hle y hy'
      · intro y hy
        rcases List.mem_cons.mp hy with rfl | hy'
        · exact lt_of_lt_of_le hlt hcle
        · exact hstrict y hy'
    · have hstep : pickBetter x c = x := if_neg hlt
      have hcx : c.1 ≤ x.1 := le_of_not_lt hlt
      rw [hstep] at heq hle hstrict
      have hxle : x.1 ≤ (cs.foldl pickBetter x).1 := hle x (List.mem_cons_self x cs)
      rw [hstep]
      cases pre' with
      | nil =>
        simp only [List.nil_append, List.cons.injEq] at heq
        refine ⟨[], c :: cs, ?_, ?_, by simp⟩
        · simp [← heq.1]
        · intro y hy
          rcases List.mem_cons.mp hy with rfl | hy'
          · exact hxle
          · rcases List.mem_cons.mp hy' with rfl | hy''
            · exact le_trans hcx hxle
            · exact hle y (List.mem_cons.mpr (Or.inr hy''))
      | cons y' pre'' =>
        simp only [List.cons_append, List.cons.injEq] at heq
        obtain ⟨hxy, hcs⟩ := heq
        refine ⟨x :: c :: pre'', post', ?_, ?_, ?_⟩
        · simp only [List.cons_append]
          conv_lhs => rw [hcs]
        · intro y hy
          rcases List.mem_cons.mp hy with rfl | hy'
          · exact hxle
          · rcases List.mem_cons.mp hy' with rfl | hy''
            · exact le_trans hcx hxle
            · exact hle y (List.mem_cons.mpr (Or.inr hy''))
        · intro y hy
          rcases List.mem_cons.mp hy with rfl | hy'
          · exact hxy ▸ hstrict y' (List.mem_cons_self y' pre'')
          · rcases List.mem_cons.mp hy' with rfl | hy''
            · exact lt_of_le_of_lt hcx (hxy ▸ hstrict y' (List.mem_cons_self y' pre''))
            · exact hstrict y (List.mem_cons.mpr (Or.inr hy''))

lemma selectBest_first_max (l : List (ℚ × String)) :
    (l = [] → selectBest l = (0, none)) ∧
    (∀ c ∈ l, c.1 ≤ (selectBest l).1) ∧
    (l ≠ [] → ∃ pre post c, l = pre ++ c :: post ∧
      selectBest l = (c.1, some c.2) ∧ ∀ c' ∈ pre, c'.1 < c.1) := by
  cases l with
  | nil => exact ⟨fun _ => rfl, by simp, by simp⟩
  | cons x xs =>
    obtain ⟨pre, post, heq, hle, hstrict⟩ := foldl_pickBetter_first xs x
    have hsel : selectBest (x :: xs) =
        ((xs.foldl pickBetter x).1, some (xs.foldl pickBetter x).2) := rfl
    refine ⟨by simp, ?_, ?_⟩
    · intro c hc
      rw [hsel]
      exact hle c hc
    · intro _
      exact ⟨pre, post, xs.foldl pickBetter x, heq, hsel, hstrict⟩

lemma candidates_eq_spec (card : CardType) (cc : String) (amount : ℚ)
    (weekday : ℕ) (pc : String) :
    discountCandidates card cc amount weekday pc =
      specCandidateList card cc amount weekday pc := by
  cases card <;>
    simp [discountCandidates, specCandidateList, specBenefitRules,
      List.filterMap, specAbroad, is_abroad, bne, or_assoc] <;>
    split_ifs <;> simp_all

lemma candidate_percentages (card : CardType) (cc : String) (amount : ℚ)
    (weekday : ℕ) (pc : String) (h : 0 < amount) :
    ∀ c ∈ discountCandidates card cc amount weekday pc,
      0 ≤ c.1 ∧ c.1 ≤ 35 / 100 * amount ∧
      ∃ q, (q = 5 ∨ q = 15 ∨ q = 20 ∨ q = 25 ∨ q = 30 ∨ q = 35) ∧
        c.1 = amount * (q / 100) := by
  intro c hc
  cases card <;> simp only [discountCandidates] at hc
  case Classic => exact absurd hc (by simp)
  all_goals
    split_ifs at hc <;>
      simp only [List.mem_append, List.mem_singleton, List.not_mem_nil,
        or_false, false_or] at hc
  all_goals
    first
      | exact hc.elim
      | (rcases hc with (rfl | rfl) | rfl <;>
          first
            | exact ⟨by linarith, by linarith, 5, by norm_num, rfl⟩
            | exact ⟨by linarith, by linarith, 15, by norm_num, rfl⟩
            | exact ⟨by linarith, by linarith, 20, by norm_num, rfl⟩
            | exact ⟨by linarith, by linarith, 25, by norm_num, rfl⟩
            | exact ⟨by linarith, by linarith, 30, by norm_num, rfl⟩
            | exact ⟨by linarith, by linarith, 35, by norm_num, rfl⟩)

lemma storeInv_init : StoreInv initState := by
  refine ⟨by simp [initState], by simp [initState], le_refl 1⟩

lemma storeInv_step (s : SysState) (op : Op) (h : StoreInv s) :
    StoreInv (stepOp s op) := by
  cases op with
  | purchase p =>
    simp only [stepOp]
    rw [register_purchase_state]
    exact h
  | client p =>
    obtain ⟨h1, h2, h3⟩ := h
    simp only [stepOp, register_client]
    cases hv : validate_client_restrictions p with
    | some e => exact ⟨h1, h2, h3⟩
    | none =>
      obtain ⟨k, hk⟩ : ∃ k, s.nextId = k + 1 :=
        ⟨s.nextId - 1, (Nat.succ_pred_eq_of_pos h3).symm⟩
      refine ⟨?_, ?_, Nat.le_add_left 1 s.nextId⟩
      · intro entry hmem
        rcases List.mem_append.mp hmem with hm | hm
        · exact h1 entry hm
        · simp only [List.mem_singleton] at hm
          subst hm
          exact hv
      · simp only [List.map_append, h2, hk, Nat.add_sub_cancel,
          List.map_cons, List.map_nil]
        rw [List.range_succ, List.map_append]
        rfl

lemma runOps_inv (ops : List Op) : StoreInv (runOps ops) := by
  have key : ∀ (l : List Op) (s : SysState), StoreInv s →
      StoreInv (l.foldl stepOp s) := by
    intro l
    induction l with
    | nil => intro s hs; exact hs
    | cons op rest ih => intro s hs; exact ih _ (storeInv_step s op hs)
  exact key ops initState storeInv_init

/-! ### Claim theorems -/

/-- C1: for every client, purchase with positive amount and weekday, the
candidate list compute_discount builds equals the spec's §4.4 tier table
(every applicable rule contributes, no short-circuiting), "abroad" is the
trimmed case-insensitive country comparison with empty strings equal, and
the selection returns the first-listed candidate of maximum discount, or
(0, absent) when no rule qualifies. -/
theorem benefit_selector_follows_table (card : CardType) (cc : String)
    (amount : ℚ) (weekday : ℕ) (pc : String) (hamt : 0 < amount) :
    discountCandidates card cc amount weekday pc =
      specCandidateList card cc amount weekday pc ∧
    (is_abroad cc pc = false ↔ pyLower (pyStrip pc) = pyLower (pyStrip cc)) ∧
    is_abroad "" "" = false ∧
    (discountCandidates card cc amount weekday pc = [] →
      compute_discount_at card cc amount weekday pc = (0, none)) ∧
    (∀ c ∈ discountCandidates card cc amount weekday pc,
      c.1 ≤ (compute_discount_at card cc amount weekday pc).1) ∧
    (discountCandidates card cc amount weekday pc ≠ [] →
      ∃ pre post c,
        discountCandidates card cc amount weekday pc = pre ++ c :: post ∧
        compute_discount_at card cc amount weekday pc = (c.1, some c.2) ∧
        ∀ c' ∈ pre, c'.1 < c.1) := by
  obtain ⟨hempty, hle, hmax⟩ :=
    selectBest_first_max (discountCandidates card cc amount weekday pc)
  refine ⟨candidates_eq_spec card cc amount weekday pc, ?_, by decide,
    hempty, hle, hmax⟩
  simp [is_abroad, bne]

/-- Witness for C1 at a Platinum client from France buying 300 abroad on a
Saturday. -/
theorem benefit_selector_follows_table_witness :
    discountCandidates .Platinum "France" 300 5 "USA" =
      specCandidateList .Platinum "France" 300 5 "USA" :=
  (benefit_selector_follows_table .Platinum "France" 300 5 "USA"
    (by norm_num)).1

/-- C2: validate_client_restrictions decides exactly per the spec's §4.2
per-tier policy table evaluated top-down, the first failing condition
determining the reason: Classic always accepts; any tier below its income
threshold reports the income reason; Platinum/Black/White with qualifying
income but no VISE CLUB report the club reason; Black/White from a blocked
country report the residency reason only after income and club pass. -/
theorem eligibility_follows_policy_table (p : ClientIn) :
    validate_client_restrictions p = specEligibility p ∧
    (p.cardType ≠ .Classic → p.monthlyIncome < incomeThreshold p.cardType →
      validate_client_restrictions p = some (incomeReason p.cardType)) ∧
    ((p.cardType = .Platinum ∨ p.cardType = .Black ∨ p.cardType = .White) →
      incomeThreshold p.cardType ≤ p.monthlyIncome → p.viseClub = false →
      validate_client_restrictions p = some (clubReason p.cardType)) ∧
    ((p.cardType = .Black ∨ p.cardType = .White) →
      2000 ≤ p.monthlyIncome → p.viseClub = true →
      p.country ∈ BLACK_WHITE_COUNTRY_BLOCKLIST →
      validate_client_restrictions p = some (residencyReason p.cardType)) ∧
    (p.cardType = .Classic → validate_client_restrictions p = none) := by
  obtain ⟨name, country, income, club, ct⟩ := p
  refine ⟨?_, ?_, ?_, ?_, ?_⟩
  · cases ct
    · rfl
    · by_cases h : income < 500
      · simp [validate_client_restrictions, specEligibility, specEligChecks,
          List.find?, h, decide_eq_false (not_le.mpr h), incomeReason]
      · simp [validate_client_restrictions, specEligibility, specEligChecks,
          List.find?, h, decide_eq_true (not_lt.mp h)]
    · by_cases h : income < 1000
      · simp [validate_client_restrictions, specEligibility, specEligChecks,
          List.find?, h, decide_eq_false (not_le.mpr h), incomeReason]
      · cases club <;>
          simp [validate_client_restrictions, specEligibility, specEligChecks,
            List.find?, h, decide_eq_true (not_lt.mp h), clubReason]
    · by_cases h : income < 2000
      · simp [validate_client_restrictions, specEligibility, specEligChecks,
          List.find?, h, decide_eq_false (not_le.mpr h), incomeReason]
      · cases club
        · simp [validate_client_restrictions, specEligibility, specEligChecks,
            List.find?, h, decide_eq_true (not_lt.mp h), clubReason]
        · by_cases hc : country ∈ BLACK_WHITE_COUNTRY_BLOCKLIST
          · simp [validate_client_restrictions, specEligibility, specEligChecks,
              List.find?, h, decide_eq_true (not_lt.mp h), hc,
              decide_eq_false (not_not_intro hc), residencyReason]
          · simp [validate_client_restrictions, specEligibility, specEligChecks,
              List.find?, h, decide_eq_true (not_lt.mp h), hc, decide_eq_true hc]
    · by_cases h : income < 2000
      · simp [validate_client_restrictions, specEligibility, specEligChecks,
          List.find?, h, decide_eq_false (not_le.mpr h), incomeReason]
      · cases club
        · simp [validate_client_restrictions, specEligibility, specEligChecks,
            List.find?, h, decide_eq_true (not_lt.mp h), clubReason]
        · by_cases hc : country ∈ BLACK_WHITE_COUNTRY_BLOCKLIST
          · simp [validate_client_restrictions, specEligibility, specEligChecks,
              List.find?, h, decide_eq_true (not_lt.mp h), hc,
              decide_eq_false (not_not_intro hc), residencyReason]
          · simp [validate_client_restrictions, specEligibility, specEligChecks,
              List.find?, h, decide_eq_true (not_lt.mp h), hc, decide_eq_true hc]
  · cases ct <;>
      simp_all [validate_client_restrictions, incomeThreshold, incomeReason]
  · cases ct <;>
      simp_all [validate_client_restrictions, incomeThreshold, clubReason]
  · cases ct <;>
      simp_all [validate_client_restrictions, residencyReason]
  · cases ct <;> simp_all [validate_client_restrictions]

/-- Witness for C2 at a Platinum applicant with qualifying income but no
VISE CLUB membership. -/
theorem eligibility_follows_policy_table_witness :
    validate_client_restrictions ⟨"Ana", "France", 1200, false, .Platinum⟩ =
      some (clubReason .Platinum) :=
  (eligibility_follows_policy_table
    ⟨"Ana", "France", 1200, false, .Platinum⟩).2.2.1 (Or.inl rfl)
    (by norm_num [incomeThreshold]) rfl

/-- C3: purchase_restrictions rejects exactly when the tier is Black or
White and the purchase country is an exact-string member of the blocklist
(China, Vietnam, India, Iran in both spellings), with a reason naming the
tier and the purchase country; every other combination passes. -/
theorem purchase_gate_black_white_blocklist (client : ClientRecord)
    (purchase : PurchaseIn) :
    ((purchase_restrictions client purchase).isSome ↔
      ((client.cardType = .Black ∨ client.cardType = .White) ∧
        (purchase.purchaseCountry = "China" ∨
         purchase.purchaseCountry = "Vietnam" ∨
         purchase.purchaseCountry = "India" ∨
         purchase.purchaseCountry = "Irán" ∨
         purchase.purchaseCountry = "Iran"))) ∧
    (purchase_restrictions client purchase = none ∨
      purchase_restrictions client purchase =
        some ("El cliente con tarjeta " ++ cardName client.cardType ++
          " no puede realizar compras desde " ++ purchase.purchaseCountry)) := by
  constructor
  · rw [purchase_restrictions]
    split_ifs with h
    · simp only [Option.isSome_some, true_iff]
      simpa [BLACK_WHITE_COUNTRY_BLOCKLIST] using h
    · simp only [Option.isSome_none, Bool.false_eq_true, false_iff]
      simpa [BLACK_WHITE_COUNTRY_BLOCKLIST] using h
  · rw [purchase_restrictions]
    split_ifs <;> simp

/-- C4: an unparseable purchase date is not handled: with an existing
client that passes the purchase gate, register_purchase ends in an
uncaught exception rather than a structured rejection, contradicting the
spec's requirement that malformed timestamps be a recoverable client
input error. -/
theorem malformed_timestamp_escapes_handler :
    isoparse "not-a-date" = none ∧
    (register_purchase ⟨[(1, ⟨1, "Ana", "USA", 1200, true, .Platinum⟩)], 2⟩
        ⟨1, 100, "USD", "not-a-date", "USA"⟩).1 = .unhandledException := by
  decide

/-- C5: for positive amounts, the selected discount is non-negative, every
candidate is exactly one of the rule percentages (5/15/20/25/30/35 %) of
the amount, hence at most 35 % of it, and the selected discount never
exceeds the amount. -/
theorem discount_nonneg_and_bounded (card : CardType) (cc : String)
    (amount : ℚ) (weekday : ℕ) (pc : String) (h : 0 < amount) :
    0 ≤ (compute_discount_at card cc amount weekday pc).1 ∧
    (compute_discount_at card cc amount weekday pc).1 ≤ 35 / 100 * amount ∧
    (compute_discount_at card cc amount weekday pc).1 ≤ amount ∧
    (∀ c ∈ discountCandidates card cc amount weekday pc,
      0 ≤ c.1 ∧ c.1 ≤ 35 / 100 * amount ∧
      ∃ q, (q = 5 ∨ q = 15 ∨ q = 20 ∨ q = 25 ∨ q = 30 ∨ q = 35) ∧
        c.1 = amount * (q / 100)) := by
  have hcand := candidate_percentages card cc amount weekday pc h
  obtain ⟨hempty, hle, hmax⟩ :=
    selectBest_first_max (discountCandidates card cc amount weekday pc)
  have hdef : compute_discount_at card cc amount weekday pc =
      selectBest (discountCandidates card cc amount weekday pc) := rfl
  by_cases hnil : discountCandidates card cc amount weekday pc = []
  · have hz : compute_discount_at card cc amount weekday pc = (0, none) :=
      hdef.trans (hempty hnil)
    rw [hz]
    have h35 : (0 : ℚ) ≤ 35 / 100 * amount := by linarith
    exact ⟨le_refl 0, h35, h.le, hcand⟩
  · obtain ⟨pre, post, c, hsplit, hsel, _⟩ := hmax hnil
    have hcmem : c ∈ discountCandidates card cc amount weekday pc := by
      rw [hsplit]
      exact List.mem_append.mpr (Or.inr (List.mem_cons_self c post))
    obtain ⟨hc0, hc35, _⟩ := hcand c hcmem
    rw [hdef, hsel]
    exact ⟨hc0, hc35, by linarith, hcand⟩

/-- Witness for C5 at a Black client buying 300 abroad on a Saturday. -/
theorem discount_nonneg_and_bounded_witness :
    0 ≤ (compute_discount_at .Black "France" 300 5 "USA").1 :=
  (discount_nonneg_and_bounded .Black "France" 300 5 "USA" (by norm_num)).1

/-- C6 (amended): for an approved purchase, discountApplied is the selected
discount rounded to 2 decimals, while finalAmount is the amount minus the
unrounded selected discount, rounded to 2 decimals — not the amount minus
the already-rounded discountApplied. -/
theorem approved_purchase_rounding (s : SysState) (p : PurchaseIn)
    (client : ClientRecord) (dt : PyDateTime)
    (hc : s.clients.lookup p.clientId = some client)
    (hg : purchase_restrictions client p = none)
    (hd : isoparse p.purchaseDate = some dt) :
    (register_purchase s p).1 = .approved
      ⟨p.clientId, p.amount,
       round2 (compute_discount_at client.cardType client.country p.amount
         (pyWeekday dt) p.purchaseCountry).1,
       round2 (p.amount - (compute_discount_at client.cardType client.country
         p.amount (pyWeekday dt) p.purchaseCountry).1),
       (compute_discount_at client.cardType client.country p.amount
         (pyWeekday dt) p.purchaseCountry).2⟩ := by
  simp only [register_purchase, hc, hg, compute_discount, hd, Option.map_some']

/-- Witness for C6 at the spec's worked example: Platinum, France, 250 on
a Saturday, domestic. -/
theorem approved_purchase_rounding_witness :
    (register_purchase ⟨[(1, ⟨1, "Ana", "France", 1200, true, .Platinum⟩)], 2⟩
        ⟨1, 250, "USD", "2025-09-20T14:30:00Z", "France"⟩).1 = .approved
      ⟨1, 250,
       round2 (compute_discount_at .Platinum "France" 250
         (pyWeekday ⟨2025, 9, 20, 14, 30, 0, 0⟩) "France").1,
       round2 (250 - (compute_discount_at .Platinum "France" 250
         (pyWeekday ⟨2025, 9, 20, 14, 30, 0, 0⟩) "France").1),
       (compute_discount_at .Platinum "France" 250
         (pyWeekday ⟨2025, 9, 20, 14, 30, 0, 0⟩) "France").2⟩ :=
  approved_purchase_rounding
    ⟨[(1, ⟨1, "Ana", "France", 1200, true, .Platinum⟩)], 2⟩
    ⟨1, 250, "USD", "2025-09-20T14:30:00Z", "France"⟩
    ⟨1, "Ana", "France", 1200, true, .Platinum⟩
    ⟨2025, 9, 20, 14, 30, 0, 0⟩ rfl rfl rfl

/-- Counterexample to C6 as stated: a Platinum client in France buying
100.111 abroad on a Sunday gets discountApplied 5.01 and finalAmount
95.11, but originalAmount minus discountApplied rounded to 2 decimals is
95.10 (no rounding tie is involved, so this holds under half-up as well
as half-even). -/
theorem rounding_claim_counterexample :
    (register_purchase ⟨[(1, ⟨1, "Ana", "France", 1200, true, .Platinum⟩)], 2⟩
        ⟨1, 100111/1000, "USD", "2025-09-21T10:00:00Z", "USA"⟩).1 =
      .approved ⟨1, 100111/1000, 501/100, 9511/100,
        some "Exterior - Descuento 5%"⟩ ∧
    round2 ((100111/1000 : ℚ) - 501/100) = 9510/100 ∧
    (9511/100 : ℚ) ≠ round2 ((100111/1000 : ℚ) - 501/100) := by
  have h1 : round2 ((100111 : ℚ)/1000 * (5/100)) = 501/100 := by
    norm_num [round2, roundHalfEven, Int.floor_eq_iff]
  have h2 : round2 ((100111 : ℚ)/1000 - 100111/1000 * (5/100)) = 9511/100 := by
    norm_num [round2, roundHalfEven, Int.floor_eq_iff]
  have h3 : round2 ((100111/1000 : ℚ) - 501/100) = 9510/100 := by
    norm_num [round2, roundHalfEven, Int.floor_eq_iff]
  refine ⟨?_, h3, by rw [h3]; norm_num⟩
  calc (register_purchase ⟨[(1, ⟨1, "Ana", "France", 1200, true, .Platinum⟩)], 2⟩
        ⟨1, 100111/1000, "USD", "2025-09-21T10:00:00Z", "USA"⟩).1
      = .approved ⟨1, 100111/1000, round2 ((100111 : ℚ)/1000 * (5/100)),
          round2 ((100111 : ℚ)/1000 - 100111/1000 * (5/100)),
          some "Exterior - Descuento 5%"⟩ := rfl
    _ = .approved ⟨1, 100111/1000, 501/100, 9511/100,
          some "Exterior - Descuento 5%"⟩ := by rw [h1, h2]

/-- C7: every reachable store state holds only records that passed
eligibility, with ids exactly 1 … nextId − 1 assigned in order; a rejected
registration returns its error with the state untouched, and an accepted
one receives id nextId, appends the record and increments the counter. -/
theorem register_client_gatekeeps_store :
    (∀ ops : List Op, StoreInv (runOps ops)) ∧
    (∀ (s : SysState) (p : ClientIn) (e : String),
      validate_client_restrictions p = some e →
      register_client s p = (.rejected e, s)) ∧
    (∀ (s : SysState) (p : ClientIn),
      validate_client_restrictions p = none →
      register_client s p =
        (.registered ⟨s.nextId, p.name, p.cardType, "Registered",
            "Cliente apto para tarjeta " ++ cardName p.cardType⟩,
         ⟨s.clients ++ [(s.nextId, ⟨s.nextId, p.name, p.country,
            p.monthlyIncome, p.viseClub, p.cardType⟩)], s.nextId + 1⟩)) := by
  refine ⟨runOps_inv, ?_, ?_⟩
  · intro s p e hv
    simp only [register_client, hv]
  · intro s p hv
    simp only [register_client, hv]

/-- Witness for C7: a run with one accepted registration satisfies the
invariant, and a Gold applicant below the income threshold is rejected
with the store unchanged. -/
theorem register_client_gatekeeps_store_witness :
    StoreInv (runOps [.client ⟨"Ana", "France", 1200, true, .Platinum⟩]) ∧
    register_client initState ⟨"Bob", "USA", 100, false, .Gold⟩ =
      (.rejected
        "El cliente no cumple con el ingreso mínimo de 500 USD mensuales para Gold",
       initState) :=
  ⟨register_client_gatekeeps_store.1 _,
   register_client_gatekeeps_store.2.1 initState _ _ (by decide)⟩

/-- C8: the weekday of a parsed timestamp depends only on the parsed civil
date (two parses agreeing on year, month and day agree on the weekday,
whatever their time and offset), is in 0..6, and the display table is the
fixed Monday-through-Sunday seven-entry list, anchored by a known Monday
mapping to 0 and a known Sunday to 6. -/
theorem weekday_from_parsed_civil_date :
    (∀ (s1 s2 : String) (dt1 dt2 : PyDateTime),
      isoparse s1 = some dt1 → isoparse s2 = some dt2 →
      dt1.year = dt2.year → dt1.month = dt2.month → dt1.day = dt2.day →
      pyWeekday dt1 = pyWeekday dt2) ∧
    (∀ (s : String) (dt : PyDateTime), isoparse s = some dt →
      pyWeekday dt < 7) ∧
    WEEKDAY_NAME =
      ["Lunes", "Martes", "Miércoles", "Jueves", "Viernes", "Sábado",
       "Domingo"] ∧
    pyWeekday ⟨2024, 1, 1, 0, 0, 0, 0⟩ = 0 ∧
    pyWeekday ⟨2024, 1, 7, 23, 59, 59, -300⟩ = 6 := by
  refine ⟨?_, ?_, rfl, by decide, by decide⟩
  · intro s1 s2 dt1 dt2 _ _ hy hm hd
    simp [pyWeekday, hy, hm, hd]
  · intro s dt _
    exact Nat.mod_lt _ (by norm_num)

/-- Witness for C8: the same calendar day parsed with a UTC designator and
with a +09:00 offset yields the same weekday. -/
theorem weekday_from_parsed_civil_date_witness :
    pyWeekday ⟨2025, 9, 20, 14, 30, 0, 0⟩ =
      pyWeekday ⟨2025, 9, 20, 23, 59, 59, 540⟩ :=
  weekday_from_parsed_civil_date.1 "2025-09-20T14:30:00Z"
    "2025-09-20T23:59:59+09:00" _ _ rfl rfl rfl rfl rfl

/-- C9: register_purchase never changes the client store or the id
counter, whatever its outcome. -/
theorem register_purchase_leaves_store_unchanged (s : SysState)
    (p : PurchaseIn) :
    (register_purchase s p).2.clients = s.clients ∧
    (register_purchase s p).2.nextId = s.nextId := by
  rw [register_purchase_state]
  exact ⟨rfl, rfl⟩

/-- C10: the blocked-country checks use exact string membership — case or
whitespace variants of blocked countries are accepted at registration and
purchase for Black/White — while the abroad comparison trims and folds
case, so such variants compare equal there. -/
theorem blocklist_membership_is_exact :
    ("china" ∉ BLACK_WHITE_COUNTRY_BLOCKLIST) ∧
    (" China" ∉ BLACK_WHITE_COUNTRY_BLOCKLIST) ∧
    ("IRAN" ∉ BLACK_WHITE_COUNTRY_BLOCKLIST) ∧
    validate_client_restrictions ⟨"A", "china", 2500, true, .Black⟩ = none ∧
    validate_client_restrictions ⟨"B", " China", 2500, true, .White⟩ = none ∧
    validate_client_restrictions ⟨"C", "China", 2500, true, .Black⟩ =
      some (residencyReason .Black) ∧
    purchase_restrictions ⟨1, "A", "USA", 2500, true, .Black⟩
      ⟨1, 100, "USD", "2025-09-20T14:30:00Z", "china"⟩ = none ∧
    purchase_restrictions ⟨1, "B", "USA", 2500, true, .White⟩
      ⟨1, 100, "USD", "2025-09-20T14:30:00Z", " China"⟩ = none ∧
    purchase_restrictions ⟨1, "A", "USA", 2500, true, .Black⟩
      ⟨1, 100, "USD", "2025-09-20T14:30:00Z", "China"⟩ =
      some "El cliente con tarjeta Black no puede realizar compras desde China" ∧
    is_abroad "China" "china" = false ∧
    is_abroad "China" " China " = false ∧
    is_abroad "" "" = false := by
  decide

end Vise


